import Mathlib

/- Verification of the syndictor content-syndication dashboard (src/app.js)
against its natural-language specification. The mutable application state is
the mockData object; the state-changing operations are toggleSource and
updateRecentActivity, while the load* functions are pure renders. Components
the spec describes whose service code is listed in project-structure.md but
absent from the repository snapshot (the lifecycle state machine of the
content processor, the ingestion-queue enqueue, and the distribution-router
availability gate) are modelled from the spec and marked as such. -/

namespace Syndictor

/-- Embeds an entry of mockData.contentSources: a configured content source. -/
structure Source where
  id : Nat
  name : String
  type : String
  url : String
  status : String
  articles : Nat
deriving Repr, DecidableEq

/-- Embeds an entry of mockData.recentActivity: one activity-feed event. -/
structure Activity where
  time : String
  action : String
  type : String
deriving Repr, DecidableEq

/-- Embeds an entry of mockData.contentLibrary: a content item. -/
structure ContentItem where
  id : Nat
  title : String
  source : String
  status : String
  scrapedAt : String
  platforms : List String
  summary : String
deriving Repr, DecidableEq

/-- Embeds an entry of mockData.distributionPlatforms. -/
structure Platform where
  name : String
  status : String
  posts : Nat
  engagement : String
deriving Repr, DecidableEq

/-- Embeds mockData.monetization.subscriptions. -/
structure Subscriptions where
  basic : Nat
  pro : Nat
  enterprise : Nat
deriving Repr, DecidableEq

/-- Embeds mockData.monetization. The revenue figures are integers in the
source data; JavaScript arithmetic on them is exact integer arithmetic. -/
structure Monetization where
  subscriptions : Subscriptions
  affiliateRevenue : Int
  sponsoredPosts : Int
  totalRevenue : Int
deriving Repr, DecidableEq

/-- Embeds the mutable part of mockData: every field of the global object
that any claim touches. There is no further mutable state in app.js besides
currentTheme and currentSection, which hold UI chrome only. -/
structure AppState where
  contentSources : List Source
  recentActivity : List Activity
  contentLibrary : List ContentItem
  distributionPlatforms : List Platform
  monetization : Monetization
deriving Repr, DecidableEq

/-- Embeds mockData.contentSources as initialised in app.js. -/
def initSources : List Source :=
  [ ⟨1, "FDA Medical Device Updates", "RSS",
      "https://fda.gov/feeds/medical-devices.xml", "active", 42⟩,
    ⟨2, "Maritime Hydrogen News", "HTML",
      "https://maritime-executive.com/hydrogen", "active", 18⟩,
    ⟨3, "Neurotech Patents", "API",
      "https://patents.uspto.gov/api/neurotech", "paused", 7⟩ ]

/-- Embeds mockData.recentActivity as initialised in app.js. -/
def initActivities : List Activity :=
  [ ⟨"14:30", "Scraped 5 new articles from FDA Medical Device Updates", "success"⟩,
    ⟨"14:25", "AI processed 3 articles, enhanced content generated", "info"⟩,
    ⟨"14:20", "Published to LinkedIn - \x27New FDA Approval for Dental Implants\x27", "success"⟩,
    ⟨"14:15", "Twitter rate limit exceeded, retrying in 15 minutes", "warning"⟩,
    ⟨"14:10", "Generated affiliate links for 2 SaaS recommendations", "info"⟩ ]

/-- Embeds mockData.contentLibrary as initialised in app.js. -/
def initLibrary : List ContentItem :=
  [ ⟨1, "Revolutionary 3D Printed Prosthetic Receives FDA Approval",
      "FDA Medical Device Updates", "enhanced", "2025-06-02T14:30:00Z",
      ["LinkedIn", "Twitter"],
      "The FDA has approved a breakthrough 3D printed prosthetic device that offers improved mobility and reduced cost..."⟩,
    ⟨2, "Hydrogen Fuel Cells Powering New Maritime Vessels",
      "Maritime Hydrogen News", "processing", "2025-06-02T14:25:00Z",
      [],
      "A new generation of hydrogen-powered vessels is revolutionizing maritime transportation..."⟩ ]

/-- Embeds mockData.distributionPlatforms as initialised in app.js. -/
def initPlatforms : List Platform :=
  [ ⟨"LinkedIn", "connected", 89, "4.2%"⟩,
    ⟨"Twitter", "rate_limited", 156, "2.8%"⟩,
    ⟨"Medium", "connected", 23, "6.1%"⟩,
    ⟨"Substack", "disconnected", 0, "0%"⟩ ]

/-- Embeds mockData.monetization as initialised in app.js. -/
def initMonetization : Monetization :=
  ⟨⟨67, 23, 4⟩, 1580, 3, 2340⟩

/-- The initial application state: mockData as written in app.js. -/
def initState : AppState :=
  ⟨initSources, initActivities, initLibrary, initPlatforms, initMonetization⟩

/-- Embeds the status flip in toggleSource:
source.status = source.status === "active" ? "paused" : "active". -/
def toggleStatus (s : String) : String :=
  if s = "active" then "paused" else "active"

/-- Embeds toggleSource: find the first source with the given id and flip its
status in place; when no source matches, the list is returned unchanged and
no error is signalled (the JS function body is guarded by if (source)). -/
def toggleSource (sourceId : Nat) : List Source → List Source
  | [] => []
  | s :: rest =>
    if s.id = sourceId then
      { s with status := toggleStatus s.status } :: rest
    else
      s :: toggleSource sourceId rest

/-- Embeds the state change of updateRecentActivity: unshift the new event
onto mockData.recentActivity and slice(0, 5). The randomly chosen action,
time and type of the new event are taken as a parameter. -/
def updateRecentActivity (a : Activity) (feed : List Activity) : List Activity :=
  (a :: feed).take 5

/-- Embeds the dataset of the revenue doughnut chart built by the
chart-initialisation function in app.js: [affiliateRevenue,
totalRevenue - affiliateRevenue - sponsoredPosts * 500, sponsoredPosts * 500]. -/
def monetizationChartData (m : Monetization) : List Int :=
  [ m.affiliateRevenue,
    m.totalRevenue - m.affiliateRevenue - m.sponsoredPosts * 500,
    m.sponsoredPosts * 500 ]

/-- Embeds loadSubscriptionStats: the three tier rows rendered from
mockData.monetization.subscriptions. -/
def subscriptionStats (m : Monetization) : List (String × Nat) :=
  [ ("Basic Plan", m.subscriptions.basic),
    ("Pro Plan", m.subscriptions.pro),
    ("Enterprise Plan", m.subscriptions.enterprise) ]

/-- Output of one monetization render pass: the chart dataset and the
subscription-tier rows. -/
structure MonetizationSnapshot where
  chart : List Int
  tiers : List (String × Nat)
deriving Repr, DecidableEq

/-- Embeds one run of the monetization section render (chart initialisation
plus loadSubscriptionStats) as a state transformer: the code only reads
mockData.monetization and writes nothing back to mockData. -/
def snapshot (s : AppState) : MonetizationSnapshot × AppState :=
  (⟨monetizationChartData s.monetization, subscriptionStats s.monetization⟩, s)

/-- The operations of app.js that can run after load, as far as they touch
mockData: toggleSource, updateRecentActivity (with its randomly built event
as a parameter), editSource (an alert, no state change), startScraping (a
notification, no state change) and the pure load-and-render functions. -/
inductive Op where
  | toggle (sourceId : Nat)
  | update (a : Activity)
  | edit (sourceId : Nat)
  | startScrape
  | render
deriving Repr, DecidableEq

/-- Applies one operation to the application state, following app.js. -/
def applyOp (s : AppState) : Op → AppState
  | Op.toggle i => { s with contentSources := toggleSource i s.contentSources }
  | Op.update a => { s with recentActivity := updateRecentActivity a s.recentActivity }
  | Op.edit _ => s
  | Op.startScrape => s
  | Op.render => s

/-- Applies a sequence of operations from left to right. -/
def applyOps (s : AppState) (ops : List Op) : AppState :=
  ops.foldl applyOp s

/-- Modelled from the spec: the ContentItem lifecycle states of section 3,
in the listed order (the content-processor and distribution services that
drive these transitions are listed in project-structure.md but their code is
absent from the repository snapshot). -/
inductive Lifecycle where
  | ingested
  | enhancing
  | enhanced
  | enhancementFailed
  | dispatching
  | published
  | publishFailed
deriving Repr, DecidableEq

/-- Modelled from the spec: the allowed lifecycle transitions — ingestion
hands the item to enhancement, enhancement succeeds or fails, a failed
enhancement may be retried (enhancement_failed to enhancing), an enhanced
item is dispatched, and dispatch ends in published or publish_failed. -/
def allowedStep : Lifecycle → Lifecycle → Bool
  | Lifecycle.ingested, Lifecycle.enhancing => true
  | Lifecycle.enhancing, Lifecycle.enhanced => true
  | Lifecycle.enhancing, Lifecycle.enhancementFailed => true
  | Lifecycle.enhancementFailed, Lifecycle.enhancing => true
  | Lifecycle.enhanced, Lifecycle.dispatching => true
  | Lifecycle.dispatching, Lifecycle.published => true
  | Lifecycle.dispatching, Lifecycle.publishFailed => true
  | _, _ => false

/-- The position of each lifecycle state in the forward order named by the
spec: ingested, enhancing, enhanced, enhancement_failed, dispatching,
published, publish_failed. -/
def stageIndex : Lifecycle → Nat
  | Lifecycle.ingested => 0
  | Lifecycle.enhancing => 1
  | Lifecycle.enhanced => 2
  | Lifecycle.enhancementFailed => 3
  | Lifecycle.dispatching => 4
  | Lifecycle.published => 5
  | Lifecycle.publishFailed => 6

/-- States an item can occupy before it has ever been enhanced. -/
def preEnhanced : Lifecycle → Bool
  | Lifecycle.ingested => true
  | Lifecycle.enhancing => true
  | Lifecycle.enhancementFailed => true
  | _ => false

/-- An item queued for enhancement: its owning source id and raw payload. -/
structure QueueItem where
  sourceId : Nat
  payload : String
deriving Repr, DecidableEq

/-- Result of an enqueue call: the new queue, or the SourceInactive error. -/
inductive EnqueueResult where
  | ok (queue : List QueueItem)
  | sourceInactive
deriving Repr, DecidableEq

/-- Modelled from the spec: the Ingestion Queue enqueue of section 4.2 (the
scraper services holding this code are listed in project-structure.md but
absent from the repository snapshot). enqueue fails with SourceInactive when
the owning source is paused, otherwise appends the item. An item whose
owning source is not registered is likewise rejected; the spec defines
enqueue only for items of registered sources. -/
def enqueue (sources : List Source) (queue : List QueueItem) (item : QueueItem) :
    EnqueueResult :=
  match sources.find? (fun s => s.id = item.sourceId) with
  | some s =>
    if s.status = "paused" then EnqueueResult.sourceInactive
    else EnqueueResult.ok (queue ++ [item])
  | none => EnqueueResult.sourceInactive

/-- Modelled from the spec: dequeue takes the head of the FIFO queue; it
never consults source state, so items queued before a pause still complete. -/
def dequeue : List QueueItem → Option (QueueItem × List QueueItem)
  | [] => none
  | x :: rest => some (x, rest)

/-- A platform connection as the spec describes it: state plus the
retry-after deadline (a tick number) that applies while rate_limited. The
dashboard records of mockData.distributionPlatforms carry the same states
but no deadline field. -/
structure PlatformConn where
  name : String
  state : String
  retryAfter : Nat
  posts : Nat
deriving Repr, DecidableEq

/-- Decision of the Distribution Router availability gate for one attempt. -/
inductive DispatchDecision where
  | dispatch
  | requeue (tick : Nat)
  | platformUnavailable
deriving Repr, DecidableEq

/-- Modelled from the spec: the per-attempt availability gate of section 4.4
(the distribution service holding this code is listed in
project-structure.md but absent from the repository snapshot). A
disconnected platform fails the attempt with PlatformUnavailable; a
rate_limited platform whose retry-after deadline has not elapsed has the
attempt requeued for a later tick; otherwise the attempt is dispatched. -/
def routeAttempt (p : PlatformConn) (now : Nat) : DispatchDecision :=
  if p.state = "disconnected" then DispatchDecision.platformUnavailable
  else if p.state = "rate_limited" ∧ now < p.retryAfter then
    DispatchDecision.requeue p.retryAfter
  else DispatchDecision.dispatch

/-- A fresh activity event, as updateRecentActivity would build one from its
random choice of action, used to exercise the feed update on the initial
state. -/
def newEv : Activity :=
  ⟨"14:45", "AI content enhancement completed", "info"⟩

/-- Toggling an id that matches no source in the list leaves it unchanged. -/
lemma toggleSource_not_found (i : Nat) (l : List Source)
    (h : ∀ src ∈ l, src.id ≠ i) : toggleSource i l = l := by
  induction l with
  | nil => rfl
  | cons s rest ih =>
    have h1 : s.id ≠ i := h s (List.mem_cons_self _ _)
    have h2 : ∀ src ∈ rest, src.id ≠ i :=
      fun x hx => h x (List.mem_cons_of_mem _ hx)
    simp [toggleSource, h1, ih h2]

/-- C3 counterexample: the claim says the pause-resume toggle on an
unregistered source id fails with a NotFound error rather than silently
doing nothing; in app.js, toggleSource(99) returns with the whole
application state unchanged, and the function has no error outcome at all,
so it silently does nothing. -/
theorem toggle_unknown_silent_noop :
    applyOp initState (Op.toggle 99) = initState := by
  rfl

/-- C3 amended: for every source identifier that is not registered, the
pause-resume toggle is a silent no-op — the application state is unchanged
and no error is reported. -/
theorem toggle_unknown_id_noop (i : Nat) (st : AppState)
    (h : ∀ src ∈ st.contentSources, src.id ≠ i) :
    applyOp st (Op.toggle i) = st := by
  obtain ⟨cs, ra, cl, dp, m⟩ := st
  simp only [applyOp]
  rw [toggleSource_not_found i cs h]

/-- C3 amended claim evaluated at a concrete unregistered id. -/
theorem toggle_unknown_id_noop_witness :
    applyOp initState (Op.toggle 42) = initState :=
  toggle_unknown_id_noop 42 initState (by decide)

/-- C4 counterexample: the claim says events may be dropped only with a
dropped-event counter surfaced; in app.js, updating the activity feed on the
initial five-event state drops the oldest previously recorded event, and the
resulting state differs from the old one in recentActivity alone — there is
no state component that counts dropped events, so no counter is surfaced. -/
theorem activity_drop_uncounted :
    (⟨"14:10", "Generated affiliate links for 2 SaaS recommendations", "info"⟩ : Activity)
        ∈ initState.recentActivity ∧
    (⟨"14:10", "Generated affiliate links for 2 SaaS recommendations", "info"⟩ : Activity)
        ∉ (applyOp initState (Op.update newEv)).recentActivity ∧
    (applyOp initState (Op.update newEv)).contentSources = initState.contentSources ∧
    (applyOp initState (Op.update newEv)).contentLibrary = initState.contentLibrary ∧
    (applyOp initState (Op.update newEv)).distributionPlatforms
        = initState.distributionPlatforms ∧
    (applyOp initState (Op.update newEv)).monetization = initState.monetization := by
  refine ⟨by decide, by decide, rfl, rfl, rfl, rfl⟩

/-- C4 amended: the Activity feed update prepends exactly one event and
truncates the feed to the 5 newest, preserving the relative order of the
retained events; events beyond the buffer are silently discarded, no
dropped-event counter exists, and no other state component changes. -/
theorem activity_update_truncates_silently (st : AppState) (a : Activity) :
    (applyOp st (Op.update a)).recentActivity = (a :: st.recentActivity).take 5 ∧
    (applyOp st (Op.update a)).contentSources = st.contentSources ∧
    (applyOp st (Op.update a)).contentLibrary = st.contentLibrary ∧
    (applyOp st (Op.update a)).distributionPlatforms = st.distributionPlatforms ∧
    (applyOp st (Op.update a)).monetization = st.monetization :=
  ⟨rfl, rfl, rfl, rfl, rfl⟩

/-- C9: every call to the activity-feed updater prepends exactly one new
event and truncates, so the result has length min (old length + 1) 5 — in
particular at most 5 — its head is the new event, and its tail is the first
four previously recorded events in their previous (newest-first) order; the
function returns only the truncated list, discarding older entries without
any dropped-event count. -/
theorem update_recent_activity_bounded (a : Activity) (feed : List Activity) :
    (updateRecentActivity a feed).length = min (feed.length + 1) 5 ∧
    (updateRecentActivity a feed).length ≤ 5 ∧
    (updateRecentActivity a feed).head? = some a ∧
    (updateRecentActivity a feed).tail = feed.take 4 := by
  refine ⟨?_, ?_, rfl, rfl⟩
  · simp only [updateRecentActivity, List.length_take, List.length_cons]
    omega
  · simp [updateRecentActivity]

/-- C2: the monetization snapshot is a pure, idempotent projection — its
output is determined by the monetization state alone, the render leaves the
application state unchanged, and recomputing it from the resulting state
yields the identical numeric output. -/
theorem snapshot_idempotent (s t : AppState) (h : s.monetization = t.monetization) :
    (snapshot s).1 = (snapshot t).1 ∧
    (snapshot s).2 = s ∧
    (snapshot (snapshot s).2).1 = (snapshot s).1 := by
  refine ⟨?_, rfl, rfl⟩
  simp [snapshot, monetizationChartData, subscriptionStats, h]

/-- C2 evaluated at the initial state: two renders from the same persisted
state agree and leave the state untouched. -/
theorem snapshot_idempotent_witness :
    (snapshot initState).1 = (snapshot initState).1 ∧
    (snapshot initState).2 = initState ∧
    (snapshot (snapshot initState).2).1 = (snapshot initState).1 :=
  snapshot_idempotent initState initState rfl

/-- C8: for every integer monetization configuration, the three
revenue-breakdown chart segments sum exactly to totalRevenue, and the
derived subscription segment can be negative (it is computed, not stored,
and nothing bounds it below). -/
theorem revenue_segments_sum_to_total :
    (∀ m : Monetization, (monetizationChartData m).sum = m.totalRevenue) ∧
    (∃ m : Monetization, ∃ v : Int,
      (monetizationChartData m).get? 1 = some v ∧ v < 0) := by
  constructor
  · intro m
    simp [monetizationChartData]
  · exact ⟨⟨⟨0, 0, 0⟩, 0, 1, 0⟩, -500, by decide⟩

/-- Toggling preserves the length of the source list. -/
lemma toggleSource_length (i : Nat) (l : List Source) :
    (toggleSource i l).length = l.length := by
  induction l with
  | nil => rfl
  | cons s rest ih =>
    by_cases h : s.id = i <;> simp [toggleSource, h, ih]

/-- No single operation changes the number of registered sources. -/
lemma applyOp_sources_length (s : AppState) (op : Op) :
    (applyOp s op).contentSources.length = s.contentSources.length := by
  cases op <;> simp [applyOp, toggleSource_length]

/-- No operation sequence changes the number of registered sources. -/
lemma applyOps_sources_length (s : AppState) (ops : List Op) :
    (applyOps s ops).contentSources.length = s.contentSources.length := by
  induction ops generalizing s with
  | nil => rfl
  | cons op ops ih =>
    calc (applyOps s (op :: ops)).contentSources.length
        = (applyOps (applyOp s op) ops).contentSources.length := rfl
      _ = (applyOp s op).contentSources.length := ih _
      _ = s.contentSources.length := applyOp_sources_length s op

/-- Relation between a source before and after a toggle aimed at id i: the
identity, type, endpoint and produced-item count are unchanged, and a source
whose id is not the target is fully unchanged. -/
def frameOk (i : Nat) (b a : Source) : Prop :=
  a.id = b.id ∧ a.name = b.name ∧ a.type = b.type ∧ a.url = b.url ∧
  a.articles = b.articles ∧ (b.id ≠ i → a = b)

lemma frameOk_refl (i : Nat) (s : Source) : frameOk i s s :=
  ⟨rfl, rfl, rfl, rfl, rfl, fun _ => rfl⟩

/-- C6: every pause-resume toggle changes at most the status field of the
targeted source — each position of the registry keeps its identity, type,
endpoint and produced-item count, every source with a different id is fully
unchanged — and no operation sequence ever deletes a source from the
registry. -/
theorem toggle_frame_and_no_delete (i : Nat) (sources : List Source) :
    List.Forall₂ (frameOk i) sources (toggleSource i sources) ∧
    (∀ (st : AppState) (ops : List Op),
      (applyOps st ops).contentSources.length = st.contentSources.length) := by
  refine ⟨?_, fun st ops => applyOps_sources_length st ops⟩
  induction sources with
  | nil => exact List.Forall₂.nil
  | cons s rest ih =>
    by_cases hid : s.id = i
    · simp only [toggleSource, if_pos hid]
      refine List.Forall₂.cons ⟨rfl, rfl, rfl, rfl, rfl, fun hne => absurd hid hne⟩ ?_
      exact List.forall₂_same.mpr (fun x _ => frameOk_refl i x)
    · simp only [toggleSource, if_neg hid]
      exact List.Forall₂.cons (frameOk_refl i s) ih

/-- C6 evaluated on a concrete operation sequence: toggles never shrink the
registry of the initial state. -/
theorem toggle_frame_and_no_delete_witness :
    (applyOps initState [Op.toggle 1, Op.render, Op.toggle 3]).contentSources.length
      = initState.contentSources.length :=
  (toggle_frame_and_no_delete 1 initState.contentSources).2 initState
    [Op.toggle 1, Op.render, Op.toggle 3]

/-- C10: the pause-resume toggle is an involution on live sources — when
every source carrying the toggled id is active or paused, toggling that id
twice restores the source list exactly. -/
theorem toggle_source_involution (i : Nat) (sources : List Source)
    (h : ∀ s ∈ sources, s.id = i → s.status = "active" ∨ s.status = "paused") :
    toggleSource i (toggleSource i sources) = sources := by
  induction sources with
  | nil => rfl
  | cons s rest ih =>
    have hrest : ∀ x ∈ rest, x.id = i → x.status = "active" ∨ x.status = "paused" :=
      fun x hx => h x (List.mem_cons_of_mem _ hx)
    obtain ⟨sid, sname, sty, surl, sstat, sart⟩ := s
    by_cases hid : sid = i
    · have hs := h ⟨sid, sname, sty, surl, sstat, sart⟩ (List.mem_cons_self _ _) hid
      simp only at hs
      rcases hs with h1 | h1 <;>
        (subst h1; simp [toggleSource, toggleStatus, hid])
    · simp [toggleSource, hid, ih hrest]

/-- C10 evaluated at the active source 1 of the initial registry. -/
theorem toggle_source_involution_witness :
    toggleSource 1 (toggleSource 1 initSources) = initSources :=
  toggle_source_involution 1 initSources (by decide)

/-- A step out of a pre-enhanced state lands in enhanced or stays
pre-enhanced. -/
lemma step_from_preEnhanced (a b : Lifecycle) :
    preEnhanced a = true → allowedStep a b = true →
    b = Lifecycle.enhanced ∨ preEnhanced b = true := by
  cases a <;> cases b <;> decide

/-- Along any allowed-transition chain out of a pre-enhanced state, an
occurrence of published is strictly preceded by an occurrence of enhanced. -/
lemma published_preceded_by_enhanced (rest : List Lifecycle) :
    ∀ a : Lifecycle, preEnhanced a = true →
    List.Chain (fun x y => allowedStep x y = true) a rest →
    ∀ k, rest.get? k = some Lifecycle.published →
    ∃ j, j < k ∧ rest.get? j = some Lifecycle.enhanced := by
  induction rest with
  | nil =>
    intro a _ _ k hk
    simp at hk
  | cons b rest ih =>
    intro a ha hchain k hk
    rcases List.chain_cons.mp hchain with ⟨hab, hchain2⟩
    rcases step_from_preEnhanced a b ha hab with hb | hb
    · cases k with
      | zero =>
        subst hb
        simp at hk
      | succ k2 =>
        exact ⟨0, Nat.succ_pos _, by rw [hb]; rfl⟩
    · cases k with
      | zero =>
        have hbp : b = Lifecycle.published := by simpa using hk
        subst hbp
        simp [preEnhanced] at hb
      | succ k2 =>
        rcases ih b hb hchain2 k2 (by simpa using hk) with ⟨j, hj, hjget⟩
        exact ⟨j + 1, Nat.succ_lt_succ hj, by simpa using hjget⟩

/-- C1: every allowed lifecycle transition moves strictly forward in the
order ingested, enhancing, enhanced, enhancement_failed, dispatching,
published, publish_failed, with the sole exception enhancement_failed to
enhancing on manual retry; and along any allowed-transition chain of a
ContentItem starting at ingested, the item is never observed in published
without having previously been observed in enhanced. -/
theorem lifecycle_forward_only :
    (∀ a b : Lifecycle, allowedStep a b = true →
      stageIndex a < stageIndex b ∨
        (a = Lifecycle.enhancementFailed ∧ b = Lifecycle.enhancing)) ∧
    (∀ rest : List Lifecycle,
      List.Chain (fun x y => allowedStep x y = true) Lifecycle.ingested rest →
      ∀ k, rest.get? k = some Lifecycle.published →
      ∃ j, j < k ∧ rest.get? j = some Lifecycle.enhanced) := by
  constructor
  · intro a b
    cases a <;> cases b <;> decide
  · intro rest hchain k hk
    exact published_preceded_by_enhanced rest Lifecycle.ingested rfl hchain k hk

/-- C1 evaluated on the concrete run ingested, enhancing, enhanced,
dispatching, published: enhanced indeed occurs before published. -/
theorem lifecycle_forward_only_witness :
    ∃ j, j < 3 ∧
      ([Lifecycle.enhancing, Lifecycle.enhanced, Lifecycle.dispatching,
        Lifecycle.published].get? j = some Lifecycle.enhanced) :=
  lifecycle_forward_only.2
    [Lifecycle.enhancing, Lifecycle.enhanced, Lifecycle.dispatching, Lifecycle.published]
    (List.Chain.cons rfl (List.Chain.cons rfl (List.Chain.cons rfl
      (List.Chain.cons rfl List.Chain.nil)))) 3 (by decide)

/-- C5: enqueueing a content item whose owning source is paused fails with
SourceInactive — never with a successful queue — so a paused source
contributes no new queue entries, while dequeue never consults source state,
so items queued before the pause still come out of the queue. -/
theorem enqueue_paused_source_rejected (sources : List Source)
    (queue : List QueueItem) (item : QueueItem) (s : Source)
    (hfind : sources.find? (fun x => x.id = item.sourceId) = some s)
    (hp : s.status = "paused") :
    enqueue sources queue item = EnqueueResult.sourceInactive ∧
    (∀ q, enqueue sources queue item ≠ EnqueueResult.ok q) ∧
    (∀ x rest, queue = x :: rest → dequeue queue = some (x, rest)) := by
  have h1 : enqueue sources queue item = EnqueueResult.sourceInactive := by
    unfold enqueue
    rw [hfind]
    simp [hp]
  refine ⟨h1, ?_, ?_⟩
  · intro q hq
    rw [h1] at hq
    exact EnqueueResult.noConfusion hq
  · intro x rest hq
    subst hq
    rfl

/-- C5 evaluated at the paused source 3 of the initial registry. -/
theorem enqueue_paused_source_rejected_witness :
    enqueue initSources [] ⟨3, "raw item"⟩ = EnqueueResult.sourceInactive :=
  (enqueue_paused_source_rejected initSources [] ⟨3, "raw item"⟩
    ⟨3, "Neurotech Patents", "API", "https://patents.uspto.gov/api/neurotech",
      "paused", 7⟩ (by decide) rfl).1

/-- C7: a publish attempt against a rate_limited platform whose retry-after
deadline has not yet passed is requeued for the deadline tick and is never
dispatched. -/
theorem rate_limited_requeued_not_dispatched (p : PlatformConn) (now : Nat)
    (hs : p.state = "rate_limited") (hd : now < p.retryAfter) :
    routeAttempt p now = DispatchDecision.requeue p.retryAfter ∧
    routeAttempt p now ≠ DispatchDecision.dispatch := by
  have h1 : routeAttempt p now = DispatchDecision.requeue p.retryAfter := by
    simp [routeAttempt, hs, hd]
  refine ⟨h1, ?_⟩
  rw [h1]
  exact fun h => DispatchDecision.noConfusion h

/-- C7 evaluated at a rate-limited platform with deadline tick 60 at tick
10: the attempt is requeued. -/
theorem rate_limited_requeued_witness :
    routeAttempt ⟨"Twitter", "rate_limited", 60, 156⟩ 10
      = DispatchDecision.requeue 60 :=
  (rate_limited_requeued_not_dispatched ⟨"Twitter", "rate_limited", 60, 156⟩ 10
    rfl (by decide)).1

end Syndictor
